import Mathlib

/-!
Shallow embedding of the github-pr-review event handler
(src/src/github-pr-review.rs) and proofs about its specification.

The handler reacts to GitHub webhook events: it classifies the event,
locates or creates a tracked review comment, lists the changed files of
the pull request, fetches and truncates each file, asks a language model
for a review, and publishes the assembled document back to the comment.

Modelling conventions:
- Rust strings are Lean `String`s; `starts_with` / `ends_with` /
  `to_lowercase` are modelled at the codepoint level (`strStartsWith`,
  `strEndsWith`, `strToLower`).  Rust `str::len` is byte length, modelled
  by `String.utf8ByteSize`.
- Fallible external calls are fields of a `World` record returning
  `Except Unit`; `fetch url = .ok none` models an HTTP response whose
  body fails text decoding (`res.text()` returning an error).
- Rust `unwrap()` sites are modelled by the `.panicked` outcome.
- The run's externally visible API calls are recorded as an ordered
  `Effect` trace.
-/

/-- Rust `str::starts_with`, at codepoint level. -/
def strStartsWith (s p : String) : Bool := p.data.isPrefixOf s.data

/-- Rust `str::ends_with`, at codepoint level. -/
def strEndsWith (s p : String) : Bool := p.data.isSuffixOf s.data

/-- Rust `str::to_lowercase` (codepoint-wise; agrees on ASCII). -/
def strToLower (s : String) : String := ⟨s.data.map Char.toLower⟩

/-- Rust `fn truncate(s: &str, max_chars: usize) -> &str`: the prefix of at
most `max_chars` codepoints (`s.char_indices().nth(max_chars)` is `None`
exactly when `s` has at most `max_chars` chars, in which case `s` itself
is returned; otherwise the byte index of the `max_chars`-th char cuts off
exactly the first `max_chars` chars). -/
def truncate (s : String) (max_chars : Nat) : String := ⟨s.data.take max_chars⟩

/-- Accumulate ASCII digits into a number; fail at the first non-digit. -/
def digitsToNat (acc : Nat) : List Char → Option Nat
  | [] => some acc
  | c :: cs => if c.isDigit then digitsToNat (acc * 10 + (c.toNat - 48)) cs else none

/-- Rust `String::parse::<u32>()`: optional leading sign, then a
non-empty run of ASCII digits, and the value must fit in 32 bits. -/
def parseU32 (s : String) : Option Nat :=
  let ds := if s.data.head? = some '+' then s.data.drop 1 else s.data
  match ds with
  | [] => none
  | _ :: _ =>
    match digitsToNat 0 ds with
    | some n => if n < 2 ^ 32 then some n else none
    | none => none

/-- Configuration read from the environment at the top of `handler`. -/
structure Config where
  owner : String
  repo : String
  trigger_phrase : String
  llm_ctx_size_env : Option String
deriving DecidableEq

/-- The binding `let llm_ctx_size = env::var("llm_ctx_size").unwrap_or("126000")
.parse::<u32>().unwrap_or(0)`. -/
def llmCtxSize (cfg : Config) : Nat :=
  (parseU32 (cfg.llm_ctx_size_env.getD "126000")).getD 0

/-- The binding `let ctx_size_char = (2 * llm_ctx_size).try_into().unwrap_or(0)`;
the multiplication is u32 arithmetic, the conversion to usize always fits. -/
def ctxSizeChar (cfg : Config) : Nat := (2 * llmCtxSize cfg) % 2 ^ 32

/-- Action field of a pull_request webhook payload; `other` stands for
every action that is neither Opened nor Synchronize. -/
inductive PullRequestAction where
  | opened
  | synchronize
  | other
deriving DecidableEq

/-- The fields of `PullRequestWebhookEventPayload` the handler reads. -/
structure PullRequestPayload where
  action : PullRequestAction
  title : Option String
  number : Nat
  user : Option String
deriving DecidableEq

/-- Action field of an issue_comment webhook payload. -/
inductive IssueCommentAction where
  | created
  | edited
  | deleted
deriving DecidableEq

/-- The fields of `IssueCommentWebhookEventPayload` the handler reads. -/
structure IssueCommentPayload where
  action : IssueCommentAction
  body : Option String
  issueTitle : String
  issueNumber : Nat
  issueUser : String
deriving DecidableEq

/-- The payload variants the handler matches on (`WebhookEventPayload`). -/
inductive WebhookEventPayload where
  | pullRequest (e : PullRequestPayload)
  | issueComment (e : IssueCommentPayload)
  | other
deriving DecidableEq

/-- An existing issue comment as returned by `list_comments`. -/
structure IssueComment where
  id : Nat
  body : Option String
deriving DecidableEq

/-- One entry of `list_files`: the fields the handler reads. -/
structure ChangedFile where
  filename : String
  contents_url : String
  blob_url : String
deriving DecidableEq

/-- The self-identity preamble checked against incoming comment bodies
(line 75 of the source). -/
def selfIdentPreamble : String := "Hello, I am a code reviewer"

/-- The marker the Synchronize-path locator scans comment bodies for
(line 104 of the source). -/
def locatorMarker : String := "Hello, I am a [code review agent]"

/-- The body passed to `create_comment` on the NewReview path
(line 117 of the source). -/
def greetingBody : String := "Hello, I am a [code reviewer](https://github.com/flows-network/github-pr-review/).\n\nIt could take a few minutes for me to analyze this PR. Relax, grab some protein shake and complete 10-15 pushups. Thanks!"

/-- The fixed preamble of the assembled response document
(line 134 of the source). -/
def respIntro : String := "Hello, I am a [code reviewer](https://github.com/flows-network/github-pr-review/). Here are my reviews of changed source code files in this PR.\n\n------\n\n"

/-- The fixed instruction prepended to the truncated file content
(line 178 of the source). -/
def questionIntro : String := "Review the following source code and report any bugs or issues in 50 to 100 words but please be concise.\n\n"

/-- The system prompt, parameterized by the PR title (line 91). -/
def systemPrompt (title : String) : String :=
  "You are an experienced software developer. You will review a source code file and its patch related to the subject of \"" ++ title ++ "\". Please be concise and accurate. Read through all the files mentioned in the PR and generate your responses."

/-- Result of a straight-line fragment of the handler: it can panic
(an `unwrap()` on a missing value), return early, or produce a value. -/
inductive StepResult (α : Type) where
  | panicked
  | earlyReturn
  | ok (a : α)
deriving DecidableEq

/-- The event classification at the top of `handler` (lines 50-88):
produces `(title, pull_number, contributor, new_commit)`, an early
return, or a panic (`p.user.unwrap()` on a PR payload without a user). -/
def classify (trigger_phrase : String) : WebhookEventPayload → StepResult (String × Nat × String × Bool)
  | .pullRequest e =>
    if e.action = .opened then
      match e.user with
      | some login => .ok (e.title.getD "", e.number, login, false)
      | none => .panicked
    else if e.action = .synchronize then
      match e.user with
      | some login => .ok (e.title.getD "", e.number, login, true)
      | none => .panicked
    else
      .earlyReturn
  | .issueComment e =>
    if e.action = .deleted then
      .earlyReturn
    else
      let body := e.body.getD ""
      if strStartsWith body selfIdentPreamble then
        .earlyReturn
      else if !(strStartsWith (strToLower body) (strToLower trigger_phrase)) then
        .earlyReturn
      else
        .ok (e.issueTitle, e.issueNumber, e.issueUser, false)
  | .other => .earlyReturn

/-- The responses of the external collaborators for one run. -/
structure World where
  listComments : Except Unit (List IssueComment)
  createComment : Except Unit Nat
  listFiles : Except Unit (List ChangedFile)
  fetch : String → Except Unit (Option String)
  chat : String → String → Except Unit String

/-- One externally visible API call of the run, in order. -/
inductive Effect where
  | listComments (pull : Nat)
  | createComment (pull : Nat) (body : String)
  | updateComment (id : Nat) (body : String)
  | listFiles (pull : Nat)
  | fetchFile (url : String)
  | chatCompletion (chat_id : String) (token_limit : Nat) (system : String) (question : String)
deriving DecidableEq

/-- Whether the run finished (returned) or panicked. -/
inductive Outcome where
  | panicked
  | finished
deriving DecidableEq

/-- The observable result of one handler invocation. -/
structure RunResult where
  outcome : Outcome
  trace : List Effect
deriving DecidableEq

/-- Comment Locator scan (lines 101-109): id of the first comment whose
body starts with `locatorMarker`; the sentinel 0 if none matches. -/
def findComment : List IssueComment → Nat
  | [] => 0
  | c :: rest =>
    if strStartsWith (c.body.getD "") locatorMarker then c.id else findComment rest

/-- The excluded-extension check of the file loop (line 140). -/
def badSuffix (filename : String) : Bool :=
  strEndsWith filename ".md" || strEndsWith filename ".js" || strEndsWith filename ".css" || strEndsWith filename ".html" || strEndsWith filename ".htm"

/-- A file survives the loop's two `continue` guards (lines 140-147):
no excluded extension, and `contents_url` at least 40 bytes long. -/
def selectFile (f : ChangedFile) : Bool :=
  !badSuffix f.filename && decide (40 ≤ f.contents_url.utf8ByteSize)

/-- The File Selector as a whole: the files the loop does not skip,
in API order. -/
def fileSelector (files : List ChangedFile) : List ChangedFile :=
  files.filter selectFile

/-- The trailing 40 characters of `contents_url` (line 148).  Rust takes
the last 40 bytes; contents URLs are ASCII, where bytes and chars agree. -/
def hashOf (contents_url : String) : String :=
  ⟨contents_url.data.drop (contents_url.data.length - 40)⟩

/-- The raw-content URL (lines 149-151). -/
def rawUrl (owner repo hash filename : String) : String :=
  "https://raw.githubusercontent.com/" ++ owner ++ "/" ++ repo ++ "/" ++ hash ++ "/" ++ filename

/-- The per-file heading pushed onto the response (lines 164-168). -/
def fileHeading (f : ChangedFile) : String :=
  "## [" ++ f.filename ++ "](" ++ f.blob_url ++ ")\n\n"

/-- The question sent to the model: fixed instruction plus the truncated
file content (lines 178-181). -/
def questionFor (ctx_size_char : Nat) (file_as_text : String) : String :=
  questionIntro ++ truncate file_as_text ctx_size_char

/-- One iteration of the file loop (lines 138-194): the text appended to
the response, the API calls made, and whether `res.text().unwrap()`
panicked. -/
def reviewFile (w : World) (cfg : Config) (chat_id system : String) (f : ChangedFile) : String × List Effect × Bool :=
  if !selectFile f then ("", [], false)
  else
    let raw_url := rawUrl cfg.owner cfg.repo (hashOf f.contents_url) f.filename
    match w.fetch raw_url with
    | .error _ => ("", [.fetchFile raw_url], false)
    | .ok none => ("", [.fetchFile raw_url], true)
    | .ok (some file_as_text) =>
      let question := questionFor (ctxSizeChar cfg) file_as_text
      match w.chat chat_id question with
      | .ok choice =>
        (fileHeading f ++ "#### Potential issues\n\n" ++ choice ++ "\n\n",
         [.fetchFile raw_url, .chatCompletion chat_id (llmCtxSize cfg) system question],
         false)
      | .error _ =>
        (fileHeading f ++ "#### Potential issues\n\nN/A\n\n",
         [.fetchFile raw_url, .chatCompletion chat_id (llmCtxSize cfg) system question],
         false)

/-- The whole file loop: folds `reviewFile` over the listed files in
order, stopping only on a panic. -/
def reviewFiles (w : World) (cfg : Config) (chat_id system : String) : List ChangedFile → String × List Effect × Bool
  | [] => ("", [], false)
  | f :: rest =>
    let fr := reviewFile w cfg chat_id system f
    if fr.2.2 then fr
    else
      let rr := reviewFiles w cfg chat_id system rest
      (fr.1 ++ rr.1, fr.2.1 ++ rr.2.1, rr.2.2)

/-- The handler after the comment id is settled (lines 128-207): the
sentinel check, the file loop, and the final `update_comment`. -/
def afterLocate (cfg : Config) (w : World) (chat_id system : String) (pull_number comment_id : Nat) (trace0 : List Effect) : RunResult :=
  if comment_id = 0 then ⟨.finished, trace0⟩
  else
    match w.listFiles with
    | .error _ =>
      ⟨.finished, trace0 ++ [.listFiles pull_number, .updateComment comment_id respIntro]⟩
    | .ok files =>
      let rr := reviewFiles w cfg chat_id system files
      if rr.2.2 then ⟨.panicked, trace0 ++ [.listFiles pull_number] ++ rr.2.1⟩
      else
        ⟨.finished, trace0 ++ [.listFiles pull_number] ++ rr.2.1 ++ [.updateComment comment_id (respIntro ++ rr.1)]⟩

/-- The whole event handler.  `event = none` models a payload that
fails to decode (`event.unwrap()` at line 47 panics). -/
def handler (cfg : Config) (w : World) (event : Option WebhookEventPayload) : RunResult :=
  match event with
  | none => ⟨.panicked, []⟩
  | some payload =>
    match classify cfg.trigger_phrase payload with
    | .panicked => ⟨.panicked, []⟩
    | .earlyReturn => ⟨.finished, []⟩
    | .ok (title, pull_number, _contributor, new_commit) =>
      let chat_id := "PR#" ++ toString pull_number
      let system := systemPrompt title
      if new_commit then
        match w.listComments with
        | .error _ => ⟨.finished, [.listComments pull_number]⟩
        | .ok comments =>
          afterLocate cfg w chat_id system pull_number (findComment comments) [.listComments pull_number]
      else
        match w.createComment with
        | .error _ => ⟨.finished, [.createComment pull_number greetingBody]⟩
        | .ok id =>
          afterLocate cfg w chat_id system pull_number id [.createComment pull_number greetingBody]

set_option maxRecDepth 10000

/-- Sample configuration with the default trigger phrase and context size. -/
def cfgSample : Config := ⟨"o", "r", "flows review", some "126000"⟩

/-- Configuration whose `llm_ctx_size` environment value is not a number. -/
def cfgBad : Config := ⟨"o", "r", "flows review", some "64k"⟩

/-- A reviewable changed file (no excluded extension, 40-byte contents URL). -/
def fileA : ChangedFile := ⟨"a.py", "0123456789012345678901234567890123456789", "https://blob/a.py"⟩

/-- A world where every external call succeeds; the PR already carries the
greeting comment posted by `create_comment`, under id 7. -/
def wOk : World :=
  { listComments := .ok [⟨7, some greetingBody⟩]
    createComment := .ok 9
    listFiles := .ok []
    fetch := fun _ => .ok (some "code")
    chat := fun _ _ => .ok "looks fine" }

/-- A world where the fetched body cannot be decoded as text. -/
def wBadText : World :=
  { listComments := .ok []
    createComment := .ok 9
    listFiles := .ok [fileA]
    fetch := fun _ => .ok none
    chat := fun _ _ => .ok "looks fine" }

/-- A world where the model backend fails on every request. -/
def wChatErr : World :=
  { listComments := .ok []
    createComment := .ok 9
    listFiles := .ok [fileA]
    fetch := fun _ => .ok (some "code")
    chat := fun _ _ => .error () }

/-- A world where listing the changed files of the PR fails. -/
def wFilesErr : World :=
  { listComments := .ok []
    createComment := .ok 9
    listFiles := .error ()
    fetch := fun _ => .ok (some "code")
    chat := fun _ _ => .ok "looks fine" }

/-- If no comment body starts with the locator marker, the scan yields
the zero sentinel. -/
theorem findComment_eq_zero (cs : List IssueComment)
    (h : ∀ c ∈ cs, strStartsWith (c.body.getD "") locatorMarker = false) :
    findComment cs = 0 := by
  induction cs with
  | nil => rfl
  | cons c rest ih =>
    have hc := h c (List.mem_cons_self c rest)
    simp only [findComment, hc, Bool.false_eq_true, if_false]
    exact ih fun d hd => h d (List.mem_cons_of_mem c hd)

/-- C4: `truncate` returns a prefix of at most `n` codepoints, never
splitting a codepoint; a string of at most `n` codepoints is returned
unchanged, so `truncate s (len s) = s`, and `truncate s 0` is empty. -/
theorem c4_truncate_spec (s : String) (n : Nat) :
    (truncate s n).data <+: s.data ∧
    (truncate s n).length ≤ n ∧
    (s.length ≤ n → truncate s n = s) ∧
    truncate s s.length = s ∧
    truncate s 0 = "" := by
  obtain ⟨l⟩ := s
  refine ⟨List.take_prefix n l, ?_, ?_, ?_, ?_⟩
  · show (l.take n).length ≤ n
    simp [List.length_take]
  · intro h
    apply String.ext
    exact List.take_of_length_le h
  · apply String.ext
    exact l.take_length
  · apply String.ext
    rfl

/-- C4 witness: the truncation contract at a concrete string and budget. -/
theorem c4_truncate_spec_witness :
    (truncate "ab" 1).data <+: "ab".data ∧
    (truncate "ab" 1).length ≤ 1 ∧
    ("ab".length ≤ 1 → truncate "ab" 1 = "ab") ∧
    truncate "ab" "ab".length = "ab" ∧
    truncate "ab" 0 = "" :=
  c4_truncate_spec "ab" 1

/-- C8: the File Selector keeps exactly the files with no excluded
extension and a contents URL of at least 40 bytes, in API order
(a sublist of the input), and it is idempotent. -/
theorem c8_file_selector_spec (files : List ChangedFile) :
    (∀ f : ChangedFile, f ∈ fileSelector files ↔
        f ∈ files ∧ badSuffix f.filename = false ∧ 40 ≤ f.contents_url.utf8ByteSize) ∧
    (fileSelector files).Sublist files ∧
    fileSelector (fileSelector files) = fileSelector files := by
  refine ⟨?_, List.filter_sublist files, ?_⟩
  · intro f
    simp [fileSelector, List.mem_filter, selectFile, Bool.and_eq_true, Bool.not_eq_true',
      and_assoc]
  · simp [fileSelector, List.filter_filter]

/-- C9: with a nonzero tracked comment id in hand, a failure of
`list_files` does not abort the run: `update_comment` is still called,
and with the preamble-only document as the new body. -/
theorem c9_list_files_failure_still_publishes (cfg : Config) (w : World)
    (chat_id system : String) (pull_number comment_id : Nat) (trace0 : List Effect)
    (hid : comment_id ≠ 0)
    (hfiles : w.listFiles = .error ()) :
    afterLocate cfg w chat_id system pull_number comment_id trace0 =
      ⟨.finished, trace0 ++ [.listFiles pull_number, .updateComment comment_id respIntro]⟩ := by
  simp [afterLocate, hid, hfiles]

/-- C9 witness: a concrete run where `list_files` fails and the tracked
comment is overwritten with the preamble alone. -/
theorem c9_list_files_failure_still_publishes_witness :
    afterLocate cfgSample wFilesErr "PR#1" "sys" 1 9 [] =
      ⟨.finished, [.listFiles 1, .updateComment 9 respIntro]⟩ :=
  c9_list_files_failure_still_publishes cfgSample wFilesErr "PR#1" "sys" 1 9 []
    (by decide) rfl

/-- C10: an unparsable `llm_ctx_size` value degrades both the token
limit and the character budget to 0, so every file is truncated to the
empty string and the question sent to the model is the fixed
instruction alone. -/
theorem c10_unparsable_ctx_size_empties_prompt (cfg : Config) (v : String)
    (henv : cfg.llm_ctx_size_env = some v)
    (hbad : parseU32 v = none) :
    llmCtxSize cfg = 0 ∧ ctxSizeChar cfg = 0 ∧
    (∀ t : String, truncate t (ctxSizeChar cfg) = "") ∧
    (∀ t : String, questionFor (ctxSizeChar cfg) t = questionIntro) := by
  have h1 : llmCtxSize cfg = 0 := by simp [llmCtxSize, henv, hbad]
  have h2 : ctxSizeChar cfg = 0 := by simp [ctxSizeChar, h1]
  have h3 : ∀ t : String, truncate t (ctxSizeChar cfg) = "" := by
    intro t
    rw [h2]
    apply String.ext
    rfl
  refine ⟨h1, h2, h3, ?_⟩
  intro t
  rw [questionFor, h3 t]
  simp

/-- C10 witness: the environment value "64k" is not a number, and the
derived budgets vanish. -/
theorem c10_unparsable_ctx_size_empties_prompt_witness :
    llmCtxSize cfgBad = 0 ∧ ctxSizeChar cfgBad = 0 ∧
    (∀ t : String, truncate t (ctxSizeChar cfgBad) = "") ∧
    (∀ t : String, questionFor (ctxSizeChar cfgBad) t = questionIntro) :=
  c10_unparsable_ctx_size_empties_prompt cfgBad "64k" rfl (by decide)

/-- If no fetched body fails text decoding, one loop iteration cannot
panic. -/
theorem reviewFile_not_panicked (w : World) (cfg : Config) (chat_id system : String)
    (f : ChangedFile) (hfetch : ∀ url, w.fetch url ≠ .ok none) :
    (reviewFile w cfg chat_id system f).2.2 = false := by
  simp only [reviewFile]
  split
  · rfl
  · split
    · rfl
    · rename_i heq
      exact absurd heq (hfetch _)
    · split <;> rfl

/-- If no fetched body fails text decoding, the whole file loop cannot
panic. -/
theorem reviewFiles_not_panicked (w : World) (cfg : Config) (chat_id system : String)
    (files : List ChangedFile) (hfetch : ∀ url, w.fetch url ≠ .ok none) :
    (reviewFiles w cfg chat_id system files).2.2 = false := by
  induction files with
  | nil => rfl
  | cons f rest ih =>
    simp [reviewFiles, reviewFile_not_panicked w cfg chat_id system f hfetch, ih]

/-- If no fetched body fails text decoding, the tail of the handler
always finishes. -/
theorem afterLocate_outcome_finished (cfg : Config) (w : World) (chat_id system : String)
    (pull_number comment_id : Nat) (trace0 : List Effect)
    (hfetch : ∀ url, w.fetch url ≠ .ok none) :
    (afterLocate cfg w chat_id system pull_number comment_id trace0).outcome = .finished := by
  simp only [afterLocate]
  split
  · rfl
  · split
    · rfl
    · rename_i files heq
      simp [reviewFiles_not_panicked w cfg chat_id system files hfetch]

/-- Classification only panics on a PR payload with a missing user. -/
theorem classify_not_panicked (trig : String) (p : WebhookEventPayload)
    (huser : ∀ e, p = .pullRequest e → e.user ≠ none) :
    classify trig p ≠ .panicked := by
  cases p with
  | other => simp [classify]
  | issueComment e =>
    simp only [classify]
    split
    · simp
    · split
      · simp
      · split
        · simp
        · simp
  | pullRequest e =>
    have hu : e.user ≠ none := huser e rfl
    rcases he : e.user with _ | login
    · exact absurd he hu
    · simp only [classify, he]
      split
      · simp
      · split
        · simp
        · simp

/-- C2 counterexample: each of the three `unwrap()` sites panics — an
undecodable event, a PR payload without a user, and a response body
that fails text decoding all crash the run. -/
theorem c2_counterexample_unwrap_sites_panic :
    (handler cfgSample wOk none).outcome = .panicked ∧
    (handler cfgSample wOk (some (.pullRequest ⟨.opened, some "T", 1, none⟩))).outcome = .panicked ∧
    (handler cfgSample wBadText (some (.pullRequest ⟨.opened, some "T", 1, some "alice"⟩))).outcome = .panicked := by
  refine ⟨rfl, by decide, by decide⟩

/-- C2 (amended): outside the three `unwrap()` sites the handler never
panics: if the event decodes, every PR payload carries a user, and no
fetched body fails text decoding, the run finishes; every other failing
external call either returns early or substitutes a placeholder. -/
theorem c2_no_panic_outside_unwrap_sites (cfg : Config) (w : World) (p : WebhookEventPayload)
    (huser : ∀ e, p = .pullRequest e → e.user ≠ none)
    (hfetch : ∀ url, w.fetch url ≠ .ok none) :
    (handler cfg w (some p)).outcome = .finished := by
  simp only [handler]
  cases hc : classify cfg.trigger_phrase p with
  | panicked => exact absurd hc (classify_not_panicked cfg.trigger_phrase p huser)
  | earlyReturn => rfl
  | ok v =>
    obtain ⟨title, pull, contrib, nc⟩ := v
    cases nc with
    | true =>
      cases hlc : w.listComments with
      | error err => rfl
      | ok cs => exact afterLocate_outcome_finished cfg w _ _ pull _ _ hfetch
    | false =>
      cases hcc : w.createComment with
      | error err => rfl
      | ok id => exact afterLocate_outcome_finished cfg w _ _ pull _ _ hfetch

/-- C2 witness: a fully successful world and a well-formed PR Opened
event satisfy the amended hypotheses, and the run finishes. -/
theorem c2_no_panic_outside_unwrap_sites_witness :
    (handler cfgSample wOk (some (.pullRequest ⟨.opened, some "T", 1, some "alice"⟩))).outcome = .finished :=
  c2_no_panic_outside_unwrap_sites cfgSample wOk (.pullRequest ⟨.opened, some "T", 1, some "alice"⟩)
    (fun e he => by injection he with h; subst h; simp)
    (fun url h => by simp [wOk] at h)

/-- C1: the greeting written by `create_comment` does not start with the
marker the Synchronize-path locator scans for, so on a later Synchronize
run the scan misses the tracked comment, the id stays the zero sentinel,
and the run ends without updating anything. -/
theorem c1_locator_never_finds_created_greeting :
    strStartsWith greetingBody locatorMarker = false ∧
    findComment [⟨7, some greetingBody⟩] = 0 ∧
    handler cfgSample wOk
      (some (.pullRequest ⟨.synchronize, some "T", 1, some "alice"⟩)) =
      ⟨.finished, [.listComments 1]⟩ := by
  refine ⟨by decide, by decide, by decide⟩

/-- C3: a comment whose body is exactly the greeting the agent itself
posts does not start with the self-identity preamble the code checks,
so with a trigger phrase the greeting happens to match, the event is
classified NewReview and a fresh comment is created, not ignored. -/
theorem c3_self_greeting_comment_not_ignored :
    strStartsWith greetingBody selfIdentPreamble = false ∧
    (handler ⟨"o", "r", "Hello, I am a [code reviewer", some "126000"⟩ wOk
      (some (.issueComment ⟨.created, some greetingBody, "T", 5, "alice"⟩))).trace.head? =
      some (.createComment 5 greetingBody) := by
  refine ⟨by decide, by decide⟩

/-- C5: when the model invocation for a selected, fetched file fails,
that file's contribution to the document is exactly the heading line
followed by the N/A section, and the loop continues with the remaining
files. -/
theorem c5_model_failure_yields_na_section (w : World) (cfg : Config)
    (chat_id system : String) (f : ChangedFile) (rest : List ChangedFile) (body : String)
    (hsel : selectFile f = true)
    (hfetch : w.fetch (rawUrl cfg.owner cfg.repo (hashOf f.contents_url) f.filename) = .ok (some body))
    (hchat : w.chat chat_id (questionFor (ctxSizeChar cfg) body) = .error ()) :
    reviewFile w cfg chat_id system f =
      (fileHeading f ++ "#### Potential issues\n\nN/A\n\n",
       [.fetchFile (rawUrl cfg.owner cfg.repo (hashOf f.contents_url) f.filename),
        .chatCompletion chat_id (llmCtxSize cfg) system (questionFor (ctxSizeChar cfg) body)],
       false) ∧
    (reviewFiles w cfg chat_id system (f :: rest)).1 =
      (fileHeading f ++ "#### Potential issues\n\nN/A\n\n") ++
        (reviewFiles w cfg chat_id system rest).1 := by
  have h1 : reviewFile w cfg chat_id system f =
      (fileHeading f ++ "#### Potential issues\n\nN/A\n\n",
       [.fetchFile (rawUrl cfg.owner cfg.repo (hashOf f.contents_url) f.filename),
        .chatCompletion chat_id (llmCtxSize cfg) system (questionFor (ctxSizeChar cfg) body)],
       false) := by
    simp [reviewFile, hsel, hfetch, hchat]
  refine ⟨h1, ?_⟩
  simp [reviewFiles, h1]

/-- C5 witness: the model backend fails on the only changed file, the
section collapses to N/A, and the loop result is the section alone. -/
theorem c5_model_failure_yields_na_section_witness :
    reviewFile wChatErr cfgSample "PR#1" "sys" fileA =
      (fileHeading fileA ++ "#### Potential issues\n\nN/A\n\n",
       [.fetchFile (rawUrl cfgSample.owner cfgSample.repo (hashOf fileA.contents_url) fileA.filename),
        .chatCompletion "PR#1" (llmCtxSize cfgSample) "sys" (questionFor (ctxSizeChar cfgSample) "code")],
       false) ∧
    (reviewFiles wChatErr cfgSample "PR#1" "sys" (fileA :: [])).1 =
      (fileHeading fileA ++ "#### Potential issues\n\nN/A\n\n") ++
        (reviewFiles wChatErr cfgSample "PR#1" "sys" []).1 :=
  c5_model_failure_yields_na_section wChatErr cfgSample "PR#1" "sys" fileA [] "code"
    (by decide) rfl rfl

/-- C6: a Synchronize event on a PR where no existing comment starts
with the locator marker keeps the zero sentinel and ends the run right
after the comment listing: no publish, no file listing, no fetch, no
model call. -/
theorem c6_sync_without_tracked_comment_is_noop (cfg : Config) (w : World)
    (e : PullRequestPayload) (login : String) (cs : List IssueComment)
    (hact : e.action = .synchronize)
    (huser : e.user = some login)
    (hlist : w.listComments = .ok cs)
    (hnone : ∀ c ∈ cs, strStartsWith (c.body.getD "") locatorMarker = false) :
    handler cfg w (some (.pullRequest e)) = ⟨.finished, [.listComments e.number]⟩ := by
  have hfind := findComment_eq_zero cs hnone
  simp [handler, classify, hact, huser, hlist, hfind, afterLocate]

/-- C6 witness: the greeting comment is present but never matches the
marker, so a concrete Synchronize run performs only the listing. -/
theorem c6_sync_without_tracked_comment_is_noop_witness :
    handler cfgSample wOk (some (.pullRequest ⟨.synchronize, some "T", 2, some "bob"⟩)) =
      ⟨.finished, [.listComments 2]⟩ :=
  c6_sync_without_tracked_comment_is_noop cfgSample wOk
    ⟨.synchronize, some "T", 2, some "bob"⟩ "bob" [⟨7, some greetingBody⟩]
    rfl rfl rfl (by decide)

/-- C7: any event that is neither PR Opened, nor PR Synchronize, nor a
qualifying issue comment makes the handler return with an empty effect
trace: no API call of any kind. -/
theorem c7_non_qualifying_event_makes_no_calls (cfg : Config) (w : World)
    (p : WebhookEventPayload)
    (h : match p with
         | .pullRequest e => e.action ≠ .opened ∧ e.action ≠ .synchronize
         | .issueComment e => e.action = .deleted ∨
             strStartsWith (e.body.getD "") selfIdentPreamble = true ∨
             strStartsWith (strToLower (e.body.getD "")) (strToLower cfg.trigger_phrase) = false
         | .other => True) :
    handler cfg w (some p) = ⟨.finished, []⟩ := by
  cases p with
  | other => rfl
  | pullRequest e =>
    obtain ⟨h1, h2⟩ := h
    simp [handler, classify, h1, h2]
  | issueComment e =>
    by_cases hd : e.action = .deleted
    · simp [handler, classify, hd]
    · rcases h with h | h | h
      · exact absurd h hd
      · simp [handler, classify, hd, h]
      · by_cases hp : strStartsWith (e.body.getD "") selfIdentPreamble = true
        · simp [handler, classify, hd, hp]
        · simp [handler, classify, hd, hp, h]

/-- C7 witness: a PR event whose action is neither Opened nor
Synchronize produces an empty trace. -/
theorem c7_non_qualifying_event_makes_no_calls_witness :
    handler cfgSample wOk (some (.pullRequest ⟨.other, some "T", 3, some "carol"⟩)) =
      ⟨.finished, []⟩ :=
  c7_non_qualifying_event_makes_no_calls cfgSample wOk
    (.pullRequest ⟨.other, some "T", 3, some "carol"⟩) ⟨by decide, by decide⟩
